import Mathlib

/-!
Verification of the NHL MCP server analytics core.

Shallow embedding of the repository sources:
- `src/nhl_mcp/server.py`: formatters (`format_game_score`, `format_standings`,
  `format_player_stats`, `format_goalie_stats`), the analytics helpers
  (`analyze_streak`, `compare_teams_head_to_head`, `compare_seasons`) and the
  tool dispatcher error boundary (`call_tool`).
- `src/nhl_mcp/nhl_api.py`: `format_season` and `_get_current_season`.

Modelling conventions: Python dictionaries read with defaulted `.get` calls
become Lean structures with total fields; Python strings become `String`
(sequences of code points, matching Python slicing semantics); the single
effect reaching the helpers, an HTTP fetch that may raise, becomes an
`Except String` argument; numeric JSON values become `Nat`, `Int` or `Rat`.
-/

/-- Home or away side of a game: the `abbrev`/`score` fields the server reads
(missing fields default to the empty string and 0, modelled as total fields);
the source field `abbrev` is renamed `teamAbbrev` because `abbrev` is a Lean
keyword. -/
structure TeamSide where
  teamAbbrev : String
  score : Nat
deriving DecidableEq

/-- One game record of a schedule response, restricted to the fields the
server reads. -/
structure Game where
  id : Nat
  gameDate : String
  gameState : String
  venue : String
  period : Nat
  homeTeam : TeamSide
  awayTeam : TeamSide
deriving DecidableEq

/-- One standings record, restricted to the fields the server reads;
`teamAbbrev` is the default-locale abbreviation string. -/
structure Standing where
  teamAbbrev : String
  wins : Nat
  losses : Nat
  otLosses : Nat
  points : Nat
  gamesPlayed : Nat
  goalFor : Nat
  goalAgainst : Nat
  goalDifferential : Int
  divisionAbbrev : String
  conferenceAbbrev : String
deriving DecidableEq

/-- One skater leader record (server.py `format_player_stats` input); the
numeric stat value is modelled as an integer. -/
structure Player where
  firstName : String
  lastName : String
  teamAbbrev : String
  position : String
  value : Int
deriving DecidableEq

/-- One goalie leader record (server.py `format_goalie_stats` input); the
numeric stat value is modelled as a rational. -/
structure Goalie where
  firstName : String
  lastName : String
  teamAbbrev : String
  value : Rat
deriving DecidableEq

/-- Python `str.ljust`: pad on the right with spaces to the given width. -/
def ljust (s : String) (w : Nat) : String :=
  s ++ String.mk (List.replicate (w - s.length) ' ')

/-- Python `str.rjust`: pad on the left with spaces to the given width. -/
def rjust (s : String) (w : Nat) : String :=
  String.mk (List.replicate (w - s.length) ' ') ++ s

/-- Python `"-" * n`. -/
def dashes (n : Nat) : String :=
  String.mk (List.replicate n '-')

/-- Pad a string on the left with zeros to the given width. -/
def padZeros (s : String) (w : Nat) : String :=
  String.mk (List.replicate (w - s.length) '0') ++ s

/-- Modelled from the spec: Python `f"{v:.2f}"` and `f"{v:.3f}"` fixed-point
rendering of a nonnegative number to `d` decimal places, modelled as exact
rational rounding to the nearest multiple of ten to the minus d, ties to
even, instead of binary floating point. Computed on the reduced
numerator/denominator pair: the scaled value is num times ten to the d over
den; its Euclidean quotient is rounded up, kept, or sent to the even
neighbour according to the comparison of twice the remainder with den. -/
def formatDecimals (q : Rat) (d : Nat) : String :=
  let scaled := (q.num * (10 : Int) ^ d).toNat
  let den := q.den
  let quo := scaled / den
  let rem := scaled % den
  let n := if den < 2 * rem then quo + 1
    else if 2 * rem < den then quo
    else if quo % 2 = 0 then quo else quo + 1
  toString (n / 10 ^ d) ++ "." ++ padZeros (toString (n % 10 ^ d)) d

/-- server.py `format_game_score` (lines 218-241). -/
def format_game_score (game : Game) : String :=
  let status :=
    if game.gameState == "LIVE" || game.gameState == "CRIT" then
      "LIVE - Period " ++ toString game.period
    else if game.gameState == "FUT" then "Scheduled"
    else if game.gameState == "FINAL" || game.gameState == "OFF" then "Final"
    else game.gameState
  game.awayTeam.teamAbbrev ++ " " ++ toString game.awayTeam.score ++ " @ " ++
    game.homeTeam.teamAbbrev ++ " " ++ toString game.homeTeam.score ++ " - " ++ status ++ "\n" ++
    "Venue: " ++ game.venue ++ "\n" ++
    "Date: " ++ game.gameDate ++ "\n" ++
    "Game ID: " ++ toString game.id

/-- One data row of the standings table (server.py lines 249-261). -/
def standingsRow (team : Standing) : String :=
  ljust team.teamAbbrev 4 ++ " | " ++ rjust (toString team.gamesPlayed) 3 ++ " | " ++
    rjust (toString team.wins) 2 ++ " | " ++ rjust (toString team.losses) 2 ++ " | " ++
    rjust (toString team.otLosses) 2 ++ " | " ++ rjust (toString team.points) 3 ++ " | " ++
    rjust (toString team.goalFor) 3 ++ " | " ++ rjust (toString team.goalAgainst) 3 ++ " | " ++
    rjust (toString team.goalDifferential) 4 ++ " | " ++ team.divisionAbbrev ++ "\n"

/-- server.py `format_standings` (lines 244-263). -/
def format_standings (standings : List Standing) : String :=
  "Team | GP | W | L | OT | PTS | GF | GA | DIFF | Div\n" ++ dashes 70 ++ "\n" ++
    String.join (standings.map standingsRow)

/-- One data row of the skater table (server.py lines 271-281); `index` is the
0-based enumeration index. -/
def playerRow (index : Nat) (player : Player) : String :=
  let name := player.firstName ++ " " ++ player.lastName
  rjust (toString (index + 1)) 3 ++ " | " ++ ljust (name.take 25) 25 ++ " | " ++
    ljust player.teamAbbrev 4 ++ " | " ++ ljust player.position 2 ++ " | " ++
    rjust (toString player.value) 4 ++ "\n"

/-- server.py `format_player_stats` (lines 266-283). -/
def format_player_stats (players : List Player) (category : String) : String :=
  "Rank | Player | Team | Pos | " ++ category.toUpper ++ "\n" ++ dashes 60 ++ "\n" ++
    String.join (players.enum.map fun ip => playerRow ip.1 ip.2)

/-- One data row of the goalie table (server.py lines 291-304). -/
def goalieRow (category : String) (index : Nat) (goalie : Goalie) : String :=
  let name := goalie.firstName ++ " " ++ goalie.lastName
  let valueStr := if category == "savePctg" then formatDecimals goalie.value 3
    else toString goalie.value
  rjust (toString (index + 1)) 3 ++ " | " ++ ljust (name.take 25) 25 ++ " | " ++
    ljust goalie.teamAbbrev 4 ++ " | " ++ valueStr ++ "\n"

/-- server.py `format_goalie_stats` (lines 286-306). -/
def format_goalie_stats (goalies : List Goalie) (category : String) : String :=
  "Rank | Goalie | Team | " ++ category.toUpper ++ "\n" ++ dashes 60 ++ "\n" ++
    String.join (goalies.enum.map fun ig => goalieRow category ig.1 ig.2)

/-- nhl_api.py `format_season` (lines 259-265): season[:4] and season[4:8]
joined by a hyphen when the length is 8, the input unchanged otherwise. -/
def format_season (season : String) : String :=
  if season.length = 8 then
    season.take 4 ++ "-" ++ (season.drop 4).take 4
  else season

/-- nhl_api.py `_get_current_season` (lines 247-257), with the clock reading
passed explicitly as year and month. -/
def get_current_season (year : Int) (month : Nat) : String :=
  if 10 ≤ month then toString year ++ toString (year + 1)
  else toString (year - 1) ++ toString year

/-- server.py line 320: a game counts as completed when its state is OFF or
FINAL. -/
def isCompleted (g : Game) : Bool :=
  g.gameState == "OFF" || g.gameState == "FINAL"

/-- server.py lines 334-339: the score of the named team in a game, reading
the home side exactly when the home abbreviation equals the team. -/
def teamScore (team : String) (g : Game) : Nat :=
  if g.homeTeam.teamAbbrev == team then g.homeTeam.score else g.awayTeam.score

/-- server.py lines 340-344: the score of the opponent of the named team. -/
def oppScore (team : String) (g : Game) : Nat :=
  if g.homeTeam.teamAbbrev == team then g.awayTeam.score else g.homeTeam.score

/-- server.py lines 345-349: the abbreviation of the opponent of the named
team. -/
def oppAbbrev (team : String) (g : Game) : String :=
  if g.homeTeam.teamAbbrev == team then g.awayTeam.teamAbbrev else g.homeTeam.teamAbbrev

/-- server.py line 351: a game is won exactly when the own score is strictly
greater than the opponent score. -/
def won (team : String) (g : Game) : Bool :=
  decide (oppScore team g < teamScore team g)

/-- server.py line 352: W on a win, L otherwise. -/
def gameResult (team : String) (g : Game) : String :=
  if won team g then "W" else "L"

/-- server.py line 354: one recent-results line. -/
def gameLine (team : String) (g : Game) : String :=
  gameResult team g ++ " " ++ toString (teamScore team g) ++ "-" ++
    toString (oppScore team g) ++ " vs " ++ oppAbbrev team g

/-- server.py lines 333-365: the streak loop of `analyze_streak`. State is
(streak count, streak type, recent results); each game first appends its
line, then either seeds the streak, extends it, or breaks at the first
mismatch; the loop also stops once ten lines have been recorded. -/
def streakLoop (team : String) : List Game → Nat → String → List String → Nat × String × List String
  | [], streakCount, streakType, recentResults => (streakCount, streakType, recentResults)
  | g :: rest, streakCount, streakType, recentResults =>
    let result := gameResult team g
    let recentResults2 := recentResults ++ [gameLine team g]
    if streakCount = 0 then
      if 10 ≤ recentResults2.length then (1, result, recentResults2)
      else streakLoop team rest 1 result recentResults2
    else if result = streakType then
      if 10 ≤ recentResults2.length then (streakCount + 1, streakType, recentResults2)
      else streakLoop team rest (streakCount + 1) streakType recentResults2
    else
      (streakCount, streakType, recentResults2)

/-- server.py lines 322-324: Python stable sort by the literal date string,
descending; modelled by a stable merge sort whose order keeps `a` before `b`
when the date of `b` is at most the date of `a`. -/
def sortGamesByDateDesc (games : List Game) : List Game :=
  games.mergeSort fun a b => decide (b.gameDate ≤ a.gameDate)

/-- server.py lines 367-371: the streak header text. -/
def streakText (streakCount : Nat) (streakType : String) : String :=
  if streakType = "W" then toString streakCount ++ " game winning streak"
  else toString streakCount ++ " game losing streak"

/-- server.py lines 309-376: `analyze_streak` after a successful fetch, on
the `games` list of the schedule response. -/
def analyze_streak_body (teamAbbrev : String) (games : List Game) : String :=
  if games.isEmpty then "No games found for " ++ teamAbbrev
  else
    let completedGames := sortGamesByDateDesc (games.filter isCompleted)
    if completedGames.isEmpty then
      "No completed games found for " ++ teamAbbrev ++ " this season"
    else
      let out := streakLoop teamAbbrev completedGames 0 "" []
      teamAbbrev ++ " Current Streak: " ++ streakText out.1 out.2.1 ++ "\n\n" ++
        "Last 10 games:\n" ++ String.intercalate "\n" out.2.2

/-- server.py lines 309-378: `analyze_streak` including its try/except
boundary; the fetch, the only failing operation in the body, is passed as an
`Except` value. -/
def analyze_streak (teamAbbrev : String) (fetched : Except String (List Game)) : String :=
  match fetched with
  | Except.ok games => analyze_streak_body teamAbbrev games
  | Except.error e => "Error analyzing streak: " ++ e

/-- server.py lines 393-404: a game is a matchup when its participant pair is
exactly the two teams, in either home/away order. -/
def isMatchup (team1 team2 : String) (g : Game) : Bool :=
  (g.homeTeam.teamAbbrev == team1 && g.awayTeam.teamAbbrev == team2) ||
  (g.homeTeam.teamAbbrev == team2 && g.awayTeam.teamAbbrev == team1)

/-- server.py lines 414-419: the perspective-independent score of team1. -/
def team1Score (team1 : String) (g : Game) : Nat :=
  if g.homeTeam.teamAbbrev == team1 then g.homeTeam.score else g.awayTeam.score

/-- server.py lines 420-424: the perspective-independent score of team2. -/
def team2Score (team1 : String) (g : Game) : Nat :=
  if g.homeTeam.teamAbbrev == team1 then g.awayTeam.score else g.homeTeam.score

/-- server.py lines 427-446: the one result line emitted for a matchup,
following the same branch structure as the loop body: completed with a team1
win, completed otherwise, upcoming, in progress. -/
def h2hLine (team1 team2 : String) (g : Game) : String :=
  let s1 := team1Score team1 g
  let s2 := team2Score team1 g
  if g.gameState == "OFF" || g.gameState == "FINAL" then
    if s2 < s1 then
      g.gameDate ++ ": " ++ team1 ++ " " ++ toString s1 ++ ", " ++ team2 ++ " " ++
        toString s2 ++ " - " ++ team1 ++ " WIN"
    else
      g.gameDate ++ ": " ++ team1 ++ " " ++ toString s1 ++ ", " ++ team2 ++ " " ++
        toString s2 ++ " - " ++ team2 ++ " WIN"
  else if g.gameState == "FUT" then
    g.gameDate ++ ": Upcoming game"
  else
    g.gameDate ++ ": " ++ team1 ++ " " ++ toString s1 ++ ", " ++ team2 ++ " " ++
      toString s2 ++ " - IN PROGRESS"

/-- server.py lines 409-446: the matchup loop of `compare_teams_head_to_head`.
State is (team1 wins, team2 wins, result lines); a completed matchup
increments exactly one counter, every matchup appends exactly one line. -/
def h2hLoop (team1 team2 : String) : List Game → Nat → Nat → List String → Nat × Nat × List String
  | [], team1Wins, team2Wins, results => (team1Wins, team2Wins, results)
  | g :: rest, team1Wins, team2Wins, results =>
    let s1 := team1Score team1 g
    let s2 := team2Score team1 g
    if g.gameState == "OFF" || g.gameState == "FINAL" then
      if s2 < s1 then
        h2hLoop team1 team2 rest (team1Wins + 1) team2Wins (results ++ [h2hLine team1 team2 g])
      else
        h2hLoop team1 team2 rest team1Wins (team2Wins + 1) (results ++ [h2hLine team1 team2 g])
    else
      h2hLoop team1 team2 rest team1Wins team2Wins (results ++ [h2hLine team1 team2 g])

/-- server.py lines 381-452: `compare_teams_head_to_head` after a successful
fetch, on the `games` list of the schedule response of team1. -/
def compare_teams_body (team1 team2 : String) (games : List Game) : String :=
  if games.isEmpty then "No schedule data found for " ++ team1
  else
    let matchups := games.filter (isMatchup team1 team2)
    if matchups.isEmpty then
      "No matchups found between " ++ team1 ++ " and " ++ team2 ++ " this season"
    else
      let out := h2hLoop team1 team2 matchups 0 0 []
      "Head-to-Head: " ++ team1 ++ " vs " ++ team2 ++ "\n\n" ++
        "Season Series: " ++ team1 ++ " " ++ toString out.1 ++ "-" ++ toString out.2.1 ++
        " " ++ team2 ++ "\n\n" ++
        "Games:\n" ++ String.intercalate "\n" out.2.2

/-- server.py lines 381-454: `compare_teams_head_to_head` including its
try/except boundary. -/
def compare_teams_head_to_head (team1 team2 : String) (fetched : Except String (List Game)) : String :=
  match fetched with
  | Except.ok games => compare_teams_body team1 team2 games
  | Except.error e => "Error comparing teams: " ++ e

/-- server.py lines 466-480: the per-season report block of the league-wide
mode of `compare_seasons`. -/
def seasonBlockLeague (season : String) (teams : List Standing) : String :=
  let totalGoals := (teams.map Standing.goalFor).sum
  let totalGames := (teams.map Standing.gamesPlayed).sum
  let avgGoals : Rat := if 0 < totalGames then (totalGoals : Rat) / (totalGames : Rat) else 0
  "Season " ++ format_season season ++ ":\n" ++
    "  Total teams: " ++ toString teams.length ++ "\n" ++
    "  Total goals: " ++ toString totalGoals ++ "\n" ++
    "  Avg goals/game: " ++ formatDecimals avgGoals 2

/-- server.py lines 487-511: the per-season report block of the per-team mode
of `compare_seasons`; the team is located by `next(...)`, the first standings
record whose default abbreviation equals the requested one exactly. -/
def seasonBlockTeam (teamAbbrev season : String) (teams : List Standing) : String :=
  match teams.find? (fun t => t.teamAbbrev == teamAbbrev) with
  | some team =>
      format_season season ++ " - " ++ teamAbbrev ++ ":\n" ++
        "  Record: " ++ toString team.wins ++ "-" ++ toString team.losses ++ "-" ++
        toString team.otLosses ++ "\n" ++
        "  Points: " ++ toString team.points ++ "\n" ++
        "  Goals For: " ++ toString team.goalFor ++ "\n" ++
        "  Goals Against: " ++ toString team.goalAgainst ++ "\n" ++
        "  Goal Diff: " ++ toString team.goalDifferential
  | none => format_season season ++ " - " ++ teamAbbrev ++ ": No data found"

/-- server.py lines 464-482: the league-wide loop, fetching standings per
season in input order; the first fetch failure aborts the loop. -/
def leagueBlocks (standingsOf : String → Except String (List Standing)) : List String → Except String (List String)
  | [] => Except.ok []
  | season :: rest => do
    let teams ← standingsOf season
    let blocks ← leagueBlocks standingsOf rest
    pure (seasonBlockLeague season teams :: blocks)

/-- server.py lines 485-513: the per-team loop, fetching standings per season
in input order; the first fetch failure aborts the loop. -/
def teamBlocks (standingsOf : String → Except String (List Standing)) (teamAbbrev : String) : List String → Except String (List String)
  | [] => Except.ok []
  | season :: rest => do
    let teams ← standingsOf season
    let blocks ← teamBlocks standingsOf teamAbbrev rest
    pure (seasonBlockTeam teamAbbrev season teams :: blocks)

/-- server.py lines 457-513: `compare_seasons` up to its try/except boundary.
Mode selection mirrors the Python truthiness test on `team_abbrev`: league
mode when the option is absent or the empty string. -/
def compare_seasons_attempt (standingsOf : String → Except String (List Standing))
    (seasons : List String) (teamAbbrev : Option String) : Except String String :=
  if teamAbbrev.getD "" = "" then
    Except.map (fun blocks => "Season Comparison:\n\n" ++ String.intercalate "\n\n" blocks)
      (leagueBlocks standingsOf seasons)
  else
    Except.map (fun blocks => "Season Comparison for " ++ teamAbbrev.getD "" ++
        ":\n\n" ++ String.intercalate "\n\n" blocks)
      (teamBlocks standingsOf (teamAbbrev.getD "") seasons)

/-- server.py lines 457-515: `compare_seasons` including its try/except
boundary. -/
def compare_seasons (standingsOf : String → Except String (List Standing))
    (seasons : List String) (teamAbbrev : Option String) : String :=
  match compare_seasons_attempt standingsOf seasons teamAbbrev with
  | Except.ok r => r
  | Except.error e => "Error comparing seasons: " ++ e

/-- server.py lines 532-537: the `get_live_games` branch of the dispatcher. -/
def live_games_text (games : List Game) : String :=
  if games.isEmpty then "No games scheduled for this date"
  else String.intercalate "\n\n" (games.map format_game_score)

/-- server.py lines 528-620: the error boundary of the dispatcher
`call_tool`; the handling of the named tool is passed as an `Except` value
and any error is converted to a text payload. -/
def call_tool (name : String) (handler : Except String String) : String :=
  match handler with
  | Except.ok text => text
  | Except.error e => "Error executing " ++ name ++ ": " ++ e

/-- Specification-side predicate: the game list is sorted by date descending,
each adjacent pair in non-increasing lexicographic order of the literal date
strings (string order stated on the underlying character lists, which is the
same order). -/
def dateSortedDesc (l : List Game) : Bool :=
  (l.zip l.tail).all fun p => decide (¬ p.1.gameDate.data < p.2.gameDate.data)

/-- Specification-side value: the length of the maximal prefix of games whose
W/L result matches the result of the first game. -/
def streakPrefixLen (team : String) : List Game → Nat
  | [] => 0
  | g :: rest => 1 + (rest.takeWhile fun x => won team x == won team g).length

/-- Builder for a concrete game record used in concrete instances. -/
def mkGame (d st ha : String) (hs : Nat) (aa : String) (asc : Nat) : Game :=
  { id := 0, gameDate := d, gameState := st, venue := "Arena", period := 3,
    homeTeam := { teamAbbrev := ha, score := hs },
    awayTeam := { teamAbbrev := aa, score := asc } }

/-- Most recent completed game of the concrete streak example (a 3-1 win). -/
def cexHead : Game := mkGame "2024-03-05" "OFF" "AAA" 3 "BBB" 1

/-- Remaining completed games of the concrete streak example, date
descending: a win, a loss breaking the streak, then two further wins. -/
def cexTail : List Game :=
  [ mkGame "2024-03-04" "OFF" "BBB" 1 "AAA" 2,
    mkGame "2024-03-03" "OFF" "AAA" 1 "BBB" 2,
    mkGame "2024-03-02" "OFF" "AAA" 5 "BBB" 0,
    mkGame "2024-03-01" "OFF" "AAA" 4 "BBB" 3 ]

/-- The concrete streak example: five completed games, results W W L W W
from the most recent game backwards. -/
def cexStreakGames : List Game := cexHead :: cexTail

/-- Concrete head-to-head schedule: team1 wins game one 3-2 at home, loses
game two 1-4 away. -/
def h2hGames : List Game :=
  [ mkGame "2024-01-10" "OFF" "AAA" 3 "BBB" 2,
    mkGame "2024-02-20" "OFF" "BBB" 4 "AAA" 1 ]

/-- Concrete completed game with equal scores. -/
def tieGame : Game := mkGame "2024-03-07" "OFF" "AAA" 2 "BBB" 2

/-- Builder for a concrete standings record used in concrete instances. -/
def mkStanding (abbr : String) (w l ot pts gp gf ga : Nat) (diff : Int) : Standing :=
  { teamAbbrev := abbr, wins := w, losses := l, otLosses := ot, points := pts,
    gamesPlayed := gp, goalFor := gf, goalAgainst := ga, goalDifferential := diff,
    divisionAbbrev := "A", conferenceAbbrev := "E" }

/-- Concrete standings record for the per-team season comparison instance. -/
def torStanding : Standing := mkStanding "TOR" 46 26 10 102 82 303 263 40

/-- Concrete standings source: the team exists only in season 20232024. -/
def c5StandingsOf : String → List Standing :=
  fun s => if s = "20232024" then [torStanding] else []

theorem streakLoop_run (team : String) (b : Bool) (l : List Game) :
    ∀ (count : Nat) (recent : List String), recent.length < 10 → 1 ≤ count →
      streakLoop team l count (if b then "W" else "L") recent =
        (count + min (l.takeWhile fun x => won team x == b).length (10 - recent.length),
         (if b then "W" else "L"),
         recent ++ (l.take (min (10 - recent.length)
             (min ((l.takeWhile fun x => won team x == b).length + 1) l.length))).map (gameLine team)) := by
  induction l with
  | nil =>
    intro count recent h10 hc
    simp [streakLoop]
  | cons g rest ih =>
    intro count recent h10 hc
    by_cases hw : won team g = b
    · have hres : gameResult team g = (if b then "W" else "L") := by
        simp [gameResult, hw]
      have htw : (g :: rest).takeWhile (fun x => won team x == b) =
          g :: rest.takeWhile (fun x => won team x == b) := by
        simp [List.takeWhile_cons, hw]
      by_cases h9 : recent.length = 9
      · simp only [streakLoop]
        rw [if_neg (by omega), hres, if_pos rfl,
          if_pos (by simp [List.length_append, h9])]
        rw [htw]
        simp only [List.length_cons, Prod.mk.injEq]
        refine ⟨by omega, trivial, ?_⟩
        have hone : min (10 - recent.length)
            (min ((rest.takeWhile fun x => won team x == b).length + 1 + 1) (rest.length + 1)) = 1 := by
          omega
        rw [hone]
        simp
      · simp only [streakLoop]
        rw [if_neg (by omega), hres, if_pos rfl,
          if_neg (by simp [List.length_append]; omega)]
        rw [ih (count + 1) (recent ++ [gameLine team g]) (by simp [List.length_append]; omega) (by omega)]
        rw [htw]
        simp only [List.length_cons, List.length_append, List.length_singleton, List.length_nil, Prod.mk.injEq]
        refine ⟨by omega, trivial, ?_⟩
        have hstep : min (10 - recent.length)
            (min ((rest.takeWhile fun x => won team x == b).length + 1 + 1) (rest.length + 1)) =
            min (10 - (recent.length + 1))
              (min ((rest.takeWhile fun x => won team x == b).length + 1) rest.length) + 1 := by
          omega
        rw [hstep, List.take_succ_cons, List.map_cons]
        simp [List.append_assoc]
    · have hres : gameResult team g ≠ (if b then "W" else "L") := by
        unfold gameResult
        cases b <;> cases hx : won team g <;> simp_all
      have htw : (g :: rest).takeWhile (fun x => won team x == b) = [] := by
        simp [List.takeWhile_cons, hw]
      simp only [streakLoop]
      rw [if_neg (by omega), if_neg hres, htw]
      simp only [List.length_nil, List.length_cons, Prod.mk.injEq]
      have hone : min (10 - recent.length) (min (0 + 1) (rest.length + 1)) = 1 := by omega
      rw [hone]
      simp


theorem streakLoop_start (team : String) (g : Game) (rest : List Game) :
    streakLoop team (g :: rest) 0 "" [] =
      (min (streakPrefixLen team (g :: rest)) 10,
       (if won team g then "W" else "L"),
       ((g :: rest).take (min 10 (min (streakPrefixLen team (g :: rest) + 1)
           (g :: rest).length))).map (gameLine team)) := by
  have h1 : streakLoop team (g :: rest) 0 "" [] =
      streakLoop team rest 1 (gameResult team g) [gameLine team g] := by
    simp [streakLoop]
  have h2 : gameResult team g = (if won team g then "W" else "L") := rfl
  rw [h1, h2, streakLoop_run team (won team g) rest 1 [gameLine team g] (by simp) (by omega)]
  simp only [streakPrefixLen, List.length_cons, List.length_singleton, List.length_nil,
    Prod.mk.injEq]
  refine ⟨by omega, trivial, ?_⟩
  have hstep : min 10 (min (1 + (rest.takeWhile fun x => won team x == won team g).length + 1)
      (rest.length + 1)) =
      min (10 - 1) (min ((rest.takeWhile fun x => won team x == won team g).length + 1)
        rest.length) + 1 := by
    omega
  rw [hstep, List.take_succ_cons, List.map_cons]
  simp

theorem h2hLoop_run (team1 team2 : String) (l : List Game) :
    ∀ (w1 w2 : Nat) (acc : List String),
      h2hLoop team1 team2 l w1 w2 acc =
        (w1 + (l.filter fun g => isCompleted g &&
            decide (team2Score team1 g < team1Score team1 g)).length,
         w2 + (l.filter fun g => isCompleted g &&
            !decide (team2Score team1 g < team1Score team1 g)).length,
         acc ++ l.map (h2hLine team1 team2)) := by
  induction l with
  | nil => intro w1 w2 acc; simp [h2hLoop]
  | cons g rest ih =>
    intro w1 w2 acc
    simp only [h2hLoop]
    by_cases hcp : (g.gameState == "OFF" || g.gameState == "FINAL") = true
    · by_cases hwin : team2Score team1 g < team1Score team1 g
      · have e1 : ((g :: rest).filter fun x => isCompleted x &&
            decide (team2Score team1 x < team1Score team1 x)) =
            g :: (rest.filter fun x => isCompleted x &&
              decide (team2Score team1 x < team1Score team1 x)) := by
          simp [List.filter_cons, isCompleted, hcp, hwin]
        have e2 : ((g :: rest).filter fun x => isCompleted x &&
            !decide (team2Score team1 x < team1Score team1 x)) =
            rest.filter fun x => isCompleted x &&
              !decide (team2Score team1 x < team1Score team1 x) := by
          simp [List.filter_cons, isCompleted, hcp, hwin]
        rw [if_pos hcp, if_pos hwin, ih, e1, e2, List.map_cons, List.length_cons]
        simp only [Prod.mk.injEq]
        exact ⟨by omega, trivial, by simp⟩
      · have e1 : ((g :: rest).filter fun x => isCompleted x &&
            decide (team2Score team1 x < team1Score team1 x)) =
            rest.filter fun x => isCompleted x &&
              decide (team2Score team1 x < team1Score team1 x) := by
          simp [List.filter_cons, isCompleted, hcp, hwin]
        have e2 : ((g :: rest).filter fun x => isCompleted x &&
            !decide (team2Score team1 x < team1Score team1 x)) =
            g :: (rest.filter fun x => isCompleted x &&
              !decide (team2Score team1 x < team1Score team1 x)) := by
          simp [List.filter_cons, isCompleted, hcp, hwin]
        rw [if_pos hcp, if_neg hwin, ih, e1, e2, List.map_cons, List.length_cons]
        simp only [Prod.mk.injEq]
        exact ⟨trivial, by omega, by simp⟩
    · have hf : (g.gameState == "OFF" || g.gameState == "FINAL") = false := by
        simpa using hcp
      have e1 : ((g :: rest).filter fun x => isCompleted x &&
          decide (team2Score team1 x < team1Score team1 x)) =
          rest.filter fun x => isCompleted x &&
            decide (team2Score team1 x < team1Score team1 x) := by
        simp [List.filter_cons, isCompleted, hf]
      have e2 : ((g :: rest).filter fun x => isCompleted x &&
          !decide (team2Score team1 x < team1Score team1 x)) =
          rest.filter fun x => isCompleted x &&
            !decide (team2Score team1 x < team1Score team1 x) := by
        simp [List.filter_cons, isCompleted, hf]
      rw [if_neg hcp, ih, e1, e2, List.map_cons]
      simp only [Prod.mk.injEq]
      exact ⟨trivial, trivial, by simp⟩

theorem length_filter_and_partition {α : Type} (p q : α → Bool) (l : List α) :
    (l.filter fun a => p a && q a).length + (l.filter fun a => p a && !q a).length =
      (l.filter p).length := by
  induction l with
  | nil => simp
  | cons a rest ih =>
    cases hp : p a <;> cases hq : q a <;>
      simp [List.filter_cons, hp, hq] <;> omega

theorem leagueBlocks_ok (standingsOf : String → List Standing) (seasons : List String) :
    leagueBlocks (fun s => Except.ok (standingsOf s)) seasons =
      Except.ok (seasons.map fun s => seasonBlockLeague s (standingsOf s)) := by
  induction seasons with
  | nil => rfl
  | cons s rest ih =>
    simp only [leagueBlocks, ih, List.map_cons]
    rfl

theorem teamBlocks_ok (standingsOf : String → List Standing) (teamAbbrev : String)
    (seasons : List String) :
    teamBlocks (fun s => Except.ok (standingsOf s)) teamAbbrev seasons =
      Except.ok (seasons.map fun s => seasonBlockTeam teamAbbrev s (standingsOf s)) := by
  induction seasons with
  | nil => rfl
  | cons s rest ih =>
    simp only [teamBlocks, ih, List.map_cons]
    rfl

/-- C1 counterexample: on the concrete sorted completed list with results
W W L W W, the recent-results block of the streak loop does not list the
first min(10, N) games of the list: the loop leaves the game walk at the
first streak break, so only three lines are recorded where the claim
demands five. -/
theorem streak_recent_results_cex :
    (∀ x ∈ cexStreakGames, isCompleted x = true) ∧
    dateSortedDesc cexStreakGames = true ∧
    (streakLoop "AAA" cexStreakGames 0 "" []).2.2 ≠
      (cexStreakGames.take (min 10 cexStreakGames.length)).map (gameLine "AAA") := by
  refine ⟨by decide, by decide, by decide⟩

/-- C1 (amended): for every non-empty completed, date-descending game list,
the recent-results block lists exactly the first min(10, p + 1, N) games in
order, where p is the streak length and N the number of games: the streak
games plus the first streak-breaking game when one exists, capped at ten. -/
theorem streak_recent_results_spec (team : String) (g : Game) (rest : List Game)
    (hall : ∀ x ∈ g :: rest, isCompleted x = true)
    (hsorted : dateSortedDesc (g :: rest) = true) :
    (streakLoop team (g :: rest) 0 "" []).2.2 =
      ((g :: rest).take (min 10 (min (streakPrefixLen team (g :: rest) + 1)
          (g :: rest).length))).map (gameLine team) := by
  rw [streakLoop_start]

/-- C1 witness: the amended statement evaluated on the concrete W W L W W
example. -/
theorem streak_recent_results_spec_witness :
    (∀ x ∈ cexHead :: cexTail, isCompleted x = true) ∧
    dateSortedDesc (cexHead :: cexTail) = true ∧
    (streakLoop "AAA" (cexHead :: cexTail) 0 "" []).2.2 =
      ((cexHead :: cexTail).take (min 10 (min (streakPrefixLen "AAA" (cexHead :: cexTail) + 1)
          (cexHead :: cexTail).length))).map (gameLine "AAA") :=
  ⟨by decide, by decide,
    streak_recent_results_spec "AAA" cexHead cexTail (by decide) (by decide)⟩

/-- C2: for every non-empty completed, date-descending game list, the streak
count equals the length of the maximal same-result prefix capped at ten, a
game is a win exactly when the own score strictly exceeds the opponent score
(ties count as losses, without error), and the header reads count followed
by game winning streak or game losing streak according to the result of the
most recent game. -/
theorem streak_count_spec (team : String) (g : Game) (rest : List Game)
    (hall : ∀ x ∈ g :: rest, isCompleted x = true)
    (hsorted : dateSortedDesc (g :: rest) = true) :
    (streakLoop team (g :: rest) 0 "" []).1 = min (streakPrefixLen team (g :: rest)) 10 ∧
    streakText (streakLoop team (g :: rest) 0 "" []).1 (streakLoop team (g :: rest) 0 "" []).2.1 =
      (if won team g then
        toString (min (streakPrefixLen team (g :: rest)) 10) ++ " game winning streak"
      else
        toString (min (streakPrefixLen team (g :: rest)) 10) ++ " game losing streak") ∧
    (∀ x : Game, won team x = true ↔ oppScore team x < teamScore team x) := by
  rw [streakLoop_start]
  refine ⟨rfl, ?_, fun x => by simp [won]⟩
  by_cases hb : won team g
  · simp [hb, streakText]
  · have hb2 : won team g = false := by simpa using hb
    simp [hb2, streakText]

/-- C2 witness: the streak statement evaluated on the concrete W W L W W
example, whose streak is a 2 game winning streak. -/
theorem streak_count_spec_witness :
    (∀ x ∈ cexHead :: cexTail, isCompleted x = true) ∧
    dateSortedDesc (cexHead :: cexTail) = true ∧
    ((streakLoop "AAA" (cexHead :: cexTail) 0 "" []).1 =
        min (streakPrefixLen "AAA" (cexHead :: cexTail)) 10 ∧
      streakText (streakLoop "AAA" (cexHead :: cexTail) 0 "" []).1
          (streakLoop "AAA" (cexHead :: cexTail) 0 "" []).2.1 =
        (if won "AAA" cexHead then
          toString (min (streakPrefixLen "AAA" (cexHead :: cexTail)) 10) ++ " game winning streak"
        else
          toString (min (streakPrefixLen "AAA" (cexHead :: cexTail)) 10) ++ " game losing streak") ∧
      (∀ x : Game, won "AAA" x = true ↔ oppScore "AAA" x < teamScore "AAA" x)) :=
  ⟨by decide, by decide,
    streak_count_spec "AAA" cexHead cexTail (by decide) (by decide)⟩

/-- C3: for every schedule with at least one matchup, the head-to-head
output is the header, the series tally line team1 W-L team2 where W counts
the completed matchups whose team1 score strictly exceeds the team2 score,
then one result line per matchup in the original schedule order (the filter
preserves schedule order; nothing is re-sorted). -/
theorem compare_teams_spec (team1 team2 : String) (games : List Game)
    (hne : games ≠ [])
    (hm : games.filter (isMatchup team1 team2) ≠ []) :
    compare_teams_body team1 team2 games =
      "Head-to-Head: " ++ team1 ++ " vs " ++ team2 ++ "\n\n" ++
        "Season Series: " ++ team1 ++ " " ++
        toString ((games.filter (isMatchup team1 team2)).filter fun g =>
          isCompleted g && decide (team2Score team1 g < team1Score team1 g)).length ++ "-" ++
        toString ((games.filter (isMatchup team1 team2)).filter fun g =>
          isCompleted g && !decide (team2Score team1 g < team1Score team1 g)).length ++
        " " ++ team2 ++ "\n\n" ++
        "Games:\n" ++ String.intercalate "\n"
          ((games.filter (isMatchup team1 team2)).map (h2hLine team1 team2)) := by
  unfold compare_teams_body
  rw [if_neg (by simpa [List.isEmpty_iff] using hne),
    if_neg (by simpa [List.isEmpty_iff] using hm)]
  rw [h2hLoop_run]
  simp

/-- C3 witness: on the concrete two-matchup schedule, a 3-2 win and a 1-4
loss, the tally line reads AAA 1-1 BBB and the two result lines appear in
schedule order. -/
theorem compare_teams_spec_witness :
    compare_teams_body "AAA" "BBB" h2hGames =
      "Head-to-Head: AAA vs BBB\n\nSeason Series: AAA 1-1 BBB\n\nGames:\n2024-01-10: AAA 3, BBB 2 - AAA WIN\n2024-02-20: AAA 1, BBB 4 - BBB WIN" :=
  (compare_teams_spec "AAA" "BBB" h2hGames (by decide) (by decide)).trans (by decide)

/-- C10: for every matchup list, team1 wins plus team2 wins equals the
number of completed matchups (exactly one counter is incremented per
completed matchup), and a completed matchup with equal scores increments the
team2 counter and emits a team2 WIN line. -/
theorem compare_teams_tie_spec (team1 team2 : String) (matchups : List Game) :
    (h2hLoop team1 team2 matchups 0 0 []).1 + (h2hLoop team1 team2 matchups 0 0 []).2.1 =
      (matchups.filter isCompleted).length ∧
    (∀ g : Game, isCompleted g = true → team1Score team1 g = team2Score team1 g →
      (h2hLoop team1 team2 [g] 0 0 []).1 = 0 ∧
      (h2hLoop team1 team2 [g] 0 0 []).2.1 = 1 ∧
      h2hLine team1 team2 g =
        g.gameDate ++ ": " ++ team1 ++ " " ++ toString (team1Score team1 g) ++ ", " ++
          team2 ++ " " ++ toString (team2Score team1 g) ++ " - " ++ team2 ++ " WIN") := by
  constructor
  · rw [h2hLoop_run]
    simp only [Nat.zero_add]
    exact length_filter_and_partition _ _ _
  · intro g hcg heq
    have hcg2 : (g.gameState == "OFF" || g.gameState == "FINAL") = true := hcg
    have hnw : ¬ (team2Score team1 g < team1Score team1 g) := by omega
    refine ⟨?_, ?_, ?_⟩
    · simp [h2hLoop, hcg2, hnw]
    · simp [h2hLoop, hcg2, hnw]
    · simp [h2hLine, hcg2, hnw]

/-- C10 witness: a completed 2-2 matchup is counted for team2 and rendered
as a BBB WIN line. -/
theorem compare_teams_tie_spec_witness :
    isCompleted tieGame = true ∧
    team1Score "AAA" tieGame = team2Score "AAA" tieGame ∧
    (h2hLoop "AAA" "BBB" [tieGame] 0 0 []).1 = 0 ∧
    (h2hLoop "AAA" "BBB" [tieGame] 0 0 []).2.1 = 1 ∧
    h2hLine "AAA" "BBB" tieGame = "2024-03-07: AAA 2, BBB 2 - BBB WIN" := by
  have h := (compare_teams_tie_spec "AAA" "BBB" [tieGame]).2 tieGame (by decide) (by decide)
  exact ⟨by decide, by decide, h.1, h.2.1, h.2.2.trans (by decide)⟩

/-- C4: in league-wide mode the season comparison reports, per season in
input order, the team count, the total goals for, and the average goals per
game rendered to two decimal places, the average being the total goals
divided by the total games played and 0 when no games were played; 300 goals
over 100 games and 450 goals over 150 games both render as 3.00. -/
theorem compare_seasons_league_spec (standingsOf : String → List Standing)
    (seasons : List String) :
    compare_seasons (fun s => Except.ok (standingsOf s)) seasons none =
      "Season Comparison:\n\n" ++ String.intercalate "\n\n" (seasons.map fun season =>
        "Season " ++ format_season season ++ ":\n" ++
          "  Total teams: " ++ toString (standingsOf season).length ++ "\n" ++
          "  Total goals: " ++ toString ((standingsOf season).map Standing.goalFor).sum ++ "\n" ++
          "  Avg goals/game: " ++ formatDecimals
            (if 0 < ((standingsOf season).map Standing.gamesPlayed).sum then
              (((standingsOf season).map Standing.goalFor).sum : Rat) /
                (((standingsOf season).map Standing.gamesPlayed).sum : Rat)
            else 0) 2) ∧
    formatDecimals ((300 : Rat) / (100 : Rat)) 2 = "3.00" ∧
    formatDecimals ((450 : Rat) / (150 : Rat)) 2 = "3.00" := by
  refine ⟨?_,
    by rw [(by norm_num : ((300 : Rat) / (100 : Rat)) = (3 : Rat))]; decide,
    by rw [(by norm_num : ((450 : Rat) / (150 : Rat)) = (3 : Rat))]; decide⟩
  have hatt : compare_seasons_attempt (fun s => Except.ok (standingsOf s)) seasons none =
      Except.ok ("Season Comparison:\n\n" ++ String.intercalate "\n\n"
        (seasons.map fun s => seasonBlockLeague s (standingsOf s))) := by
    unfold compare_seasons_attempt
    rw [leagueBlocks_ok]
    rfl
  unfold compare_seasons
  rw [hatt]
  simp [seasonBlockLeague]

/-- C5: in per-team mode the season comparison emits one block per season in
input order; the block of a season selects the first standings record whose
default abbreviation equals the requested one by exact case-sensitive
comparison, rendering the full record when one exists and a No data found
line otherwise. -/
theorem compare_seasons_team_spec (standingsOf : String → List Standing)
    (seasons : List String) (teamAbbrev : String) (hne : teamAbbrev ≠ "") :
    compare_seasons (fun s => Except.ok (standingsOf s)) seasons (some teamAbbrev) =
      "Season Comparison for " ++ teamAbbrev ++ ":\n\n" ++
        String.intercalate "\n\n" (seasons.map fun season =>
          seasonBlockTeam teamAbbrev season (standingsOf season)) ∧
    (∀ season : String,
      (standingsOf season).find? (fun st => st.teamAbbrev == teamAbbrev) = none →
      seasonBlockTeam teamAbbrev season (standingsOf season) =
        format_season season ++ " - " ++ teamAbbrev ++ ": No data found") ∧
    (∀ (season : String) (t : Standing),
      (standingsOf season).find? (fun st => st.teamAbbrev == teamAbbrev) = some t →
      seasonBlockTeam teamAbbrev season (standingsOf season) =
        format_season season ++ " - " ++ teamAbbrev ++ ":\n" ++
          "  Record: " ++ toString t.wins ++ "-" ++ toString t.losses ++ "-" ++
          toString t.otLosses ++ "\n" ++
          "  Points: " ++ toString t.points ++ "\n" ++
          "  Goals For: " ++ toString t.goalFor ++ "\n" ++
          "  Goals Against: " ++ toString t.goalAgainst ++ "\n" ++
          "  Goal Diff: " ++ toString t.goalDifferential) := by
  refine ⟨?_, ?_, ?_⟩
  · unfold compare_seasons compare_seasons_attempt
    rw [if_neg (by simpa using hne), teamBlocks_ok]
    simp [Except.map]
  · intro season h
    simp [seasonBlockTeam, h]
  · intro season t h
    simp [seasonBlockTeam, h]

set_option maxRecDepth 4096 in
/-- C5 witness: two seasons for team TOR, present in the first season and
absent from standings in the second; the first block is a full record, the
second contains No data found, in input order. -/
theorem compare_seasons_team_spec_witness :
    compare_seasons (fun s => Except.ok (c5StandingsOf s)) ["20232024", "20242025"]
        (some "TOR") =
      "Season Comparison for TOR:\n\n2023-2024 - TOR:\n  Record: 46-26-10\n  Points: 102\n  Goals For: 303\n  Goals Against: 263\n  Goal Diff: 40\n\n2024-2025 - TOR: No data found" :=
  (compare_seasons_team_spec c5StandingsOf ["20232024", "20242025"] "TOR"
    (by decide)).1.trans (by decide)

/-- C6: every failure is converted to an ordinary text payload at a
helper or dispatcher boundary, never propagated: a failing fetch makes the
streak helper answer Error analyzing streak with the cause, the head-to-head
helper Error comparing teams, the season comparison Error comparing seasons,
and the dispatcher converts any remaining error for tool name into text
beginning Error executing name; each such text begins with the word Error
and a space. -/
theorem error_boundary_spec :
    (∀ team e : String, analyze_streak team (Except.error e) =
      "Error analyzing streak: " ++ e) ∧
    (∀ team e : String, ∃ t, analyze_streak team (Except.error e) = "Error " ++ t) ∧
    (∀ team1 team2 e : String, compare_teams_head_to_head team1 team2 (Except.error e) =
      "Error comparing teams: " ++ e) ∧
    (∀ (standingsOf : String → Except String (List Standing)) (seasons : List String)
        (teamAbbrev : Option String) (e : String),
      compare_seasons_attempt standingsOf seasons teamAbbrev = Except.error e →
      compare_seasons standingsOf seasons teamAbbrev = "Error comparing seasons: " ++ e) ∧
    (∀ name e : String, call_tool name (Except.error e) =
      "Error executing " ++ name ++ ": " ++ e) ∧
    (∀ name e : String, ∃ t, call_tool name (Except.error e) = "Error " ++ t) := by
  refine ⟨fun team e => rfl, ?_, fun t1 t2 e => rfl, ?_, fun name e => rfl, ?_⟩
  · intro team e
    refine ⟨"analyzing streak: " ++ e, ?_⟩
    rw [← String.append_assoc]
    rfl
  · intro standingsOf seasons teamAbbrev e h
    unfold compare_seasons
    rw [h]
  · intro name e
    refine ⟨"executing " ++ name ++ ": " ++ e, ?_⟩
    rw [← String.append_assoc, ← String.append_assoc, ← String.append_assoc]
    rfl

/-- C6 witness: a failing standings fetch makes the season comparison answer
the error text rather than propagate. -/
theorem error_boundary_spec_witness :
    compare_seasons (fun _ => Except.error "boom") ["20242025"] none =
      "Error comparing seasons: boom" :=
  (error_boundary_spec.2.2.2.1 (fun _ => Except.error "boom") ["20242025"] none "boom"
    rfl).trans (by decide)

/-- C7: formatSeason maps a string of length exactly 8 to its first four
characters, a hyphen, and its last four characters, and returns every string
of any other length unchanged; being a total function it never fails. -/
theorem format_season_spec (s : String) :
    (s.length = 8 → format_season s =
      String.mk (s.data.take 4) ++ "-" ++ String.mk (s.data.drop (s.data.length - 4))) ∧
    (s.length ≠ 8 → format_season s = s) := by
  obtain ⟨d⟩ := s
  constructor
  · intro h
    have hd : d.length = 8 := by simpa [String.length] using h
    unfold format_season
    rw [if_pos h]
    apply String.ext
    simp only [String.data_append, String.data_take, String.data_drop, hd]
    have h1 : (d.drop 4).take 4 = d.drop 4 := by
      apply List.take_of_length_le
      simp [hd]
    simp [h1]
  · intro h
    unfold format_season
    rw [if_neg h]

/-- C7 witness: the two example season identifiers. -/
theorem format_season_spec_witness :
    format_season "20242025" = "2024-2025" ∧ format_season "2024" = "2024" :=
  ⟨((format_season_spec "20242025").1 (by decide)).trans (by decide),
   (format_season_spec "2024").2 (by decide)⟩

/-- C8: the current season identifier is year followed by year plus one from
October onwards, and year minus one followed by year before October. -/
theorem get_current_season_spec (year : Int) (month : Nat) :
    (10 ≤ month → get_current_season year month = toString year ++ toString (year + 1)) ∧
    (month < 10 → get_current_season year month = toString (year - 1) ++ toString year) := by
  constructor
  · intro h
    unfold get_current_season
    rw [if_pos h]
  · intro h
    unfold get_current_season
    rw [if_neg (by omega)]

/-- C8 witness: October 2024 and March 2025 both fall in season 20242025. -/
theorem get_current_season_spec_witness :
    get_current_season 2024 10 = "20242025" ∧ get_current_season 2025 3 = "20242025" :=
  ⟨((get_current_season_spec 2024 10).1 (by decide)).trans (by decide),
   ((get_current_season_spec 2025 3).2 (by decide)).trans (by decide)⟩

/-- C9: on empty input every formatter terminates with a total result: the
standings, skater and goalie tables are exactly the header line and the
separator line with no data rows, and the scores path answers the literal
no-games sentinel instead of a table. -/
theorem formatters_empty_spec (category : String) :
    format_standings [] =
      "Team | GP | W | L | OT | PTS | GF | GA | DIFF | Div\n" ++ dashes 70 ++ "\n" ∧
    format_player_stats [] category =
      "Rank | Player | Team | Pos | " ++ category.toUpper ++ "\n" ++ dashes 60 ++ "\n" ∧
    format_goalie_stats [] category =
      "Rank | Goalie | Team | " ++ category.toUpper ++ "\n" ++ dashes 60 ++ "\n" ∧
    live_games_text [] = "No games scheduled for this date" := by
  refine ⟨?_, ?_, ?_, rfl⟩
  · show _ ++ String.join [] = _
    rw [String.join]
    simp
  · show _ ++ String.join [] = _
    rw [String.join]
    simp
  · show _ ++ String.join [] = _
    rw [String.join]
    simp
